import Mathlib

/-! verifyctl: session store, error classification and identity-source client

A shallow embedding of

* `pkg/config/cli_config.go` (the session store `CLIConfig`),
* `pkg/module/common.go` (`HandleCommonErrors`),
* `pkg/module/directory/identity_provider.go` (`IdentitysourceClient`),

followed by theorems about them.

Conventions.  A Go `error` is an `Option String` holding the text of
`err.Error()`; `none` is the `nil` error.  `*AuthConfig` pointers are addresses
into an explicit heap, because `AddAuth` stores the caller's pointer and
`Merge` writes through a stored one.  All pointers are taken to be non-nil.
-/

namespace Verifyctl

/-! ## `pkg/config/cli_config.go` -/

namespace config

/-- The Go struct `AuthConfig`. -/
structure AuthConfig where
  Tenant : String
  Token : String
  User : Bool
deriving DecidableEq, Repr

/-- An address of an `AuthConfig` object (a non-nil `*AuthConfig`). -/
abbrev Ptr := Nat

/-- The `AuthConfig` objects in memory, by address. -/
abbrev Heap := Ptr → AuthConfig

/-- The Go struct `CLIConfig`; `Auth` is the slice of pointers. -/
structure CLIConfig where
  APIVersion : String
  Kind : String
  CurrentTenant : String
  Auth : List Ptr
deriving DecidableEq, Repr

def apiVersion : String := "1.0"

def kind : String := "Config"

/-- `NewCLIConfig`: the zero value of `CurrentTenant` is the empty string. -/
def NewCLIConfig : CLIConfig :=
  { APIVersion := apiVersion, Kind := kind, CurrentTenant := "", Auth := [] }

/-- One field assignment `o.F = v` through the pointer `o`. -/
def store (h : Heap) (o : Ptr) (v : AuthConfig) : Heap :=
  fun q => if q = o then v else h q

/-- `AuthConfig.Merge`: three assignments through `o`, each reading `c` in the
memory left by the previous one. -/
def Merge (h : Heap) (o c : Ptr) : Heap :=
  let h1 := store h o { h o with Tenant := (h c).Tenant }
  let h2 := store h1 o { h1 o with Token := (h1 c).Token }
  store h2 o { h2 o with User := (h2 c).User }

/-- The `for _, c := range o.Auth` loop of `AddAuth`: `some h'` when a pointer
with the tenant of `config` was found and merged into (the `return` inside the
loop), `none` when the loop ran to its end. -/
def addAuthLoop (h : Heap) (config : Ptr) : List Ptr → Option Heap
  | [] => none
  | c :: rest =>
    if (h c).Tenant = (h config).Tenant then some (Merge h c config)
    else addAuthLoop h config rest

/-- `CLIConfig.AddAuth`, returning the store and the memory after the call. -/
def AddAuth (o : CLIConfig) (h : Heap) (config : Ptr) : CLIConfig × Heap :=
  match addAuthLoop h config o.Auth with
  | some h1 => (o, h1)
  | none => ({ o with Auth := o.Auth ++ [config] }, h)

/-- `CLIConfig.SetCurrentTenant`. -/
def SetCurrentTenant (o : CLIConfig) (tenant : String) : CLIConfig :=
  { o with CurrentTenant := tenant }

/-- The text given to `errorsx.G11NError` in `GetCurrentAuth`. -/
def noLoginSession : String := "No login session available. Use:\n  verifyctl login -h"

/-- The loop of `GetCurrentAuth`. -/
def getCurrentAuthLoop (h : Heap) (tenant : String) : List Ptr → Option Ptr
  | [] => none
  | c :: rest =>
    if (h c).Tenant = tenant then some c else getCurrentAuthLoop h tenant rest

/-- `CLIConfig.GetCurrentAuth`: the pointer found, or the error.  It writes
nothing, so the store and the memory are its arguments, unchanged. -/
def GetCurrentAuth (o : CLIConfig) (h : Heap) : Except String Ptr :=
  match getCurrentAuthLoop h o.CurrentTenant o.Auth with
  | some c => .ok c
  | none => .error noLoginSession

/-- The tenants of the sessions of a store, in order. -/
def tenants (o : CLIConfig) (h : Heap) : List String :=
  o.Auth.map (fun p => (h p).Tenant)

/-- The sessions of a store, in order, as values. -/
def sessions (o : CLIConfig) (h : Heap) : List AuthConfig :=
  o.Auth.map h

/-- A sample memory: address 0 holds a session of tenant `a.example.com`,
address 1 one of tenant `b.example.com`, every other address a fresh login for
`a.example.com`. -/
def sampleHeap : Heap := fun p =>
  if p = 0 then { Tenant := "a.example.com", Token := "old", User := false }
  else if p = 1 then { Tenant := "b.example.com", Token := "tb", User := true }
  else { Tenant := "a.example.com", Token := "new", User := true }

/-- A sample store holding the sessions at addresses 0 and 1. -/
def sampleStore : CLIConfig :=
  { APIVersion := apiVersion, Kind := kind, CurrentTenant := "b.example.com", Auth := [0, 1] }

/-- A memory whose every session has the empty tenant. -/
def emptyTenantHeap : Heap := fun _ => { Tenant := "", Token := "tok", User := false }

end config

/-! ## `fmt.Sprintf` with a format and no operand

`GetIdentitysource` builds its `Authorization` header with
`fmt.Sprintf("Bearer "+auth.Token)`: the token is part of the format.  What
follows is the scanner of Go's `fmt` (`doPrintf`) for a call with no operands,
over the characters of the format.  Every special character of a format is
ASCII, so scanning characters and scanning bytes agree. -/

namespace fmt

/-- The flag characters skipped after a `%`. -/
def isFlag (c : Char) : Bool :=
  c = '#' || c = '0' || c = '+' || c = '-' || c = ' '

/-- The number of leading flag characters. -/
def skipFlags : List Char → Nat
  | [] => 0
  | c :: cs => if isFlag c then skipFlags cs + 1 else 0

/-- `parsenum`: the number of digits read, or `none` when the number read so
far is over a million (`tooLarge`), in which case the scan jumps to the end. -/
def parsenum (num : Nat) : List Char → Option Nat
  | [] => some 0
  | c :: cs =>
    if c.isDigit then
      if num > 1000000 then none
      else (parsenum (num * 10 + (c.toNat - 48)) cs).map (· + 1)
    else some 0

/-- The offset of the first `]`, if any. -/
def findClose : List Char → Option Nat
  | [] => none
  | c :: cs => if c = ']' then some 0 else (findClose cs).map (· + 1)

/-- The length in bytes of the UTF-8 encoding. -/
def byteLen (cs : List Char) : Nat :=
  (cs.map Char.utf8Size).sum

/-- `parseArgNumber` on the characters after a `[`: the width of the index
expression, bracket included, and whether it is a well-formed `[n]`. -/
def parseArgNumber (rest : List Char) : Nat × Bool :=
  if 1 + byteLen rest < 3 then (1, false)
  else
    match findClose rest with
    | none => (1, false)
    | some j =>
      match parsenum 0 (rest.take j) with
      | none => (j + 2, false)
      | some k => if k = 0 ∨ k ≠ j then (j + 2, false) else (j + 2, true)

/-- The state of the scan of one directive: the text written, the number of
characters read after the `%`, `afterIndex` and `goodArgNum`. -/
structure Scan where
  out : List Char
  pos : Nat
  afterIndex : Bool
  good : Bool

/-- `argNumber` with no operand: an index can never be in range. -/
def argNumber (cs : List Char) (s : Scan) : Scan :=
  match cs.drop s.pos with
  | '[' :: rest =>
    let r := parseArgNumber rest
    { s with pos := s.pos + r.1, afterIndex := r.2, good := false }
  | _ => { s with afterIndex := false }

/-- The width: `*` has no operand to read, so `%!(BADWIDTH)` is written. -/
def width (cs : List Char) (s : Scan) : Scan :=
  match cs.drop s.pos with
  | '*' :: _ =>
    { s with out := s.out ++ "%!(BADWIDTH)".toList, pos := s.pos + 1, afterIndex := false }
  | rest =>
    match parsenum 0 rest with
    | none => { s with pos := cs.length }
    | some k => { s with pos := s.pos + k, good := s.good && !(s.afterIndex && decide (0 < k)) }

/-- The precision, when a `.` follows. -/
def precision (cs : List Char) (s : Scan) : Scan :=
  match cs.drop s.pos with
  | '.' :: _ =>
    let s1 := argNumber cs { s with pos := s.pos + 1, good := s.good && !s.afterIndex }
    match cs.drop s1.pos with
    | '*' :: _ =>
      { s1 with out := s1.out ++ "%!(BADPREC)".toList, pos := s1.pos + 1, afterIndex := false }
    | rest =>
      match parsenum 0 rest with
      | none => { s1 with pos := cs.length }
      | some k => { s1 with pos := s1.pos + k }
  | _ => s

/-- The verb, or the end of the format. -/
def verb (cs : List Char) (s : Scan) : Scan :=
  match cs.drop s.pos with
  | [] => { s with out := s.out ++ "%!(NOVERB)".toList, pos := cs.length }
  | v :: _ =>
    if v = '%' then { s with out := s.out ++ ['%'], pos := s.pos + 1 }
    else if s.good = false then
      { s with out := s.out ++ "%!".toList ++ [v] ++ "(BADINDEX)".toList, pos := s.pos + 1 }
    else
      { s with out := s.out ++ "%!".toList ++ [v] ++ "(MISSING)".toList, pos := s.pos + 1 }

/-- One directive, given the characters after its `%`: what is written for it
and how many characters it takes. -/
def directive (cs : List Char) : Scan :=
  let s0 : Scan := { out := [], pos := skipFlags cs, afterIndex := false, good := true }
  let s1 := argNumber cs s0
  let s2 := width cs s1
  let s3 := precision cs s2
  let s4 := if s3.afterIndex then s3 else argNumber cs s3
  verb cs s4

/-- The format loop: `skip` counts the characters still belonging to the
directive just handled. -/
def run : Nat → List Char → List Char
  | _, [] => []
  | skip + 1, _ :: cs => run skip cs
  | 0, c :: cs =>
    if c = '%' then (directive cs).out ++ run (directive cs).pos cs
    else c :: run 0 cs

/-- `fmt.Sprintf(format)` with no operand. -/
def Sprintf0 (format : String) : String :=
  String.mk (run 0 format.toList)

end fmt

/-! ## `pkg/module/common.go` -/

namespace module

/-- A JSON value as `encoding/json` reads it; a number keeps its literal. -/
inductive JSON where
  | null
  | bool (b : Bool)
  | num (lit : String)
  | str (s : String)
  | arr (xs : List JSON)
  | obj (kvs : List (String × JSON))

/-- An `xhttp.Response`: the status code and the body.  `Parsed` is what the
scanner of `encoding/json` makes of `Body`: the value, or the text of the
syntax error. -/
structure Response where
  StatusCode : Int
  Body : String
  Parsed : Except String JSON

/-- The Go struct `VerifyError`. -/
structure VerifyError where
  MessageID : String
  MessageDescription : String
deriving DecidableEq, Repr

/-- Equality of an object key and a field name up to the case of ASCII
letters, the case-insensitive match `encoding/json` falls back to. -/
def foldEq (key name : String) : Bool :=
  key.toList.map Char.toLower == name.toList.map Char.toLower

/-- The field of `VerifyError` an object key names (0 is `messageId`, 1 is
`messageDescription`): an exact match first, then one up to case. -/
def verifyErrorField (key : String) : Option Nat :=
  if key = "messageId" then some 0
  else if key = "messageDescription" then some 1
  else if foldEq key "messageId" then some 0
  else if foldEq key "messageDescription" then some 1
  else none

/-- Decoding one member of the object into the struct; the flag records a
value of the wrong type for a `string` field (the saved `UnmarshalTypeError`).
A `null` leaves the field as it is, an unknown key is skipped. -/
def unmarshalMember (acc : VerifyError × Bool) (kv : String × JSON) : VerifyError × Bool :=
  match verifyErrorField kv.1, kv.2 with
  | none, _ => acc
  | some _, .null => acc
  | some 0, .str s => ({ acc.1 with MessageID := s }, acc.2)
  | some _, .str s => ({ acc.1 with MessageDescription := s }, acc.2)
  | some _, _ => (acc.1, true)

/-- `json.Unmarshal(response.Body, errorMessage)` for a fresh `&VerifyError{}`:
`none` when it returns an error (a syntax error, a top-level value that is
neither an object nor `null`, or a field of the wrong type). -/
def unmarshalVerifyError : Except String JSON → Option VerifyError
  | .error _ => none
  | .ok .null => some { MessageID := "", MessageDescription := "" }
  | .ok (.obj kvs) =>
    let r := kvs.foldl unmarshalMember ({ MessageID := "", MessageDescription := "" }, false)
    if r.2 then none else some r.1
  | .ok _ => none

/-- Modelled from the spec: `MakeSimpleError` is not among the source files;
the spec gives the result for an unparsable 400 body as
`BadRequest(callerSuppliedDefaultMessage)`, an error whose message is the text
passed in. -/
def MakeSimpleError (message : String) : Option String :=
  some message

/-- The text of the error for status 401. -/
def unauthenticated : String := "Login again."

/-- The text of the error for status 403. -/
def forbidden : String :=
  "You are not allowed to make this request. Check the client or application entitlements."

/-- The text of the error for status 404. -/
def notFound : String := "Resource not found"

/-- `HandleCommonErrors`; `none` is the `nil` error. -/
def HandleCommonErrors (response : Response) (defaultError : String) : Option String :=
  if response.StatusCode = 401 then some unauthenticated
  else if response.StatusCode = 403 then some forbidden
  else if response.StatusCode = 400 then
    match unmarshalVerifyError response.Parsed with
    | none => MakeSimpleError defaultError
    | some errorMessage =>
      some (errorMessage.MessageID ++ " " ++ errorMessage.MessageDescription)
  else if response.StatusCode = 404 then some notFound
  else none

/-- Whether a member of the object names a field of `VerifyError` and holds a
value that is neither a string nor `null`. -/
def wrongType (kv : String × JSON) : Bool :=
  match verifyErrorField kv.1, kv.2 with
  | none, _ => false
  | some _, .null => false
  | some _, .str _ => false
  | some _, _ => true

/-- The string a member of the object gives to field `i` of `VerifyError`, if
it gives one. -/
def memberText (i : Nat) (kv : String × JSON) : Option String :=
  match kv.2 with
  | .str s => if verifyErrorField kv.1 = some i then some s else none
  | _ => none

/-- The text field `i` of `VerifyError` holds once the members of the object
are decoded: that of the last member giving it one, the empty string when no
member does. -/
def fieldText (i : Nat) (kvs : List (String × JSON)) : String :=
  ((kvs.reverse.filterMap (memberText i)).head?).getD ""

/-- A 400 response with the given body and the given reading of it. -/
def badRequest (body : String) (parsed : Except String JSON) : Response :=
  { StatusCode := 400
    Body := body
    Parsed := parsed }

/-- A 400 response whose object has its two members in the other order, with
a third member between them. -/
def reorderedResponse : Response :=
  badRequest
    "\x7b\"messageDescription\":\"Bad filter\",\"status\":400,\"messageId\":\"CSIAI0400E\"\x7d"
    (.ok (.obj [("messageDescription", .str "Bad filter"), ("status", .num "400"),
      ("messageId", .str "CSIAI0400E")]))

/-- A 400 response whose body is an HTML page, not JSON. -/
def htmlResponse : Response :=
  { StatusCode := 400
    Body := "<html>"
    Parsed := .error "invalid character '<' looking for beginning of value" }

/-- A 500 response with a plain-text body. -/
def serverErrorResponse : Response :=
  { StatusCode := 500
    Body := "internal error"
    Parsed := .error "invalid character 'i' looking for beginning of value" }

/-- A 204 response, with no body. -/
def noContentResponse : Response :=
  { StatusCode := 204
    Body := ""
    Parsed := .error "unexpected end of JSON input" }

/-- The body `{"messageId":X,"messageDescription":Y}` as a JSON value. -/
def verifyErrorBody (X Y : String) : JSON :=
  .obj [("messageId", .str X), ("messageDescription", .str Y)]

end module

/-! ## `pkg/module/directory/identity_provider.go`

A request is kept as its parts; `url.Parse` of `https://<tenant>/<path>` is
taken to succeed.  The HTTP client is a function from the request to what the
call returns, a response pointer (possibly `nil`) and an error.  An operation
yields the requests it issued, in order, and its outcome; dereferencing a
`nil` response is the outcome `panic`.  Logging is left out. -/

namespace directory

open module

def apiIdentitysources : String := "v2.0/identitysources"

/-- An HTTP request: method, URL without the query, query parameters, header
and body. -/
structure Request where
  Method : String
  URL : String
  Query : List (String × String)
  Header : List (String × String)
  Body : Option String
deriving DecidableEq, Repr

/-- The value of a header of the request. -/
def Request.header (r : Request) (name : String) : Option String :=
  r.Header.lookup name

/-- What a call of the HTTP client returns: `(response, err)`. -/
abbrev Clientx := Request → Option Response × Option String

/-- The outcome of an operation: a run-time panic or its return values. -/
inductive Outcome (α : Type) where
  | panic
  | ret (a : α)

/-- The requests an operation issued and its outcome. -/
structure Run (α : Type) where
  trace : List Request
  outcome : Outcome α

/-- The Go struct `IdentitySource`, as far as the client reads it: the name,
and what `json.Marshal` returns for the document. -/
structure IdentitySource where
  InstanceName : String
  Marshalled : Except String String

/-- The request of `getIdentitysourceId`: a search on `instanceName`. -/
def searchRequest (auth : config.AuthConfig) (name : String) : Request :=
  { Method := "GET"
    URL := "https://" ++ auth.Tenant ++ "/" ++ apiIdentitysources
    Query := [("search", "instanceName = \"" ++ name ++ "\"")]
    Header := [("Accept", "application/json"), ("Authorization", "Bearer " ++ auth.Token)]
    Body := none }

/-- Modelled from the spec: the `openapi` client is not among the source
files; Create "POSTs to the collection path".  The content type is the one
passed to it, the other two headers are set by the request editor. -/
def createRequest (auth : config.AuthConfig) (body : String) : Request :=
  { Method := "POST"
    URL := "https://" ++ auth.Tenant ++ "/" ++ apiIdentitysources
    Query := []
    Header := [("Content-Type", "application/json"), ("Accept", "application/json"),
      ("Authorization", "Bearer " ++ auth.Token)]
    Body := some body }

/-- Modelled from the spec: the `openapi` client is not among the source
files; Get "GETs the item path".  The `Authorization` header is the one the
request editor sets, `fmt.Sprintf("Bearer "+auth.Token)`. -/
def getRequest (auth : config.AuthConfig) (id : String) : Request :=
  { Method := "GET"
    URL := "https://" ++ auth.Tenant ++ "/" ++ apiIdentitysources ++ "/" ++ id
    Query := []
    Header := [("Accept", "application/json"),
      ("Authorization", fmt.Sprintf0 ("Bearer " ++ auth.Token))]
    Body := none }

/-- The optional `sort` and `count` parameters of `GetIdentitysources`. -/
def listParams (sort count : String) : List (String × String) :=
  (if sort.length > 0 then [("sort", sort)] else []) ++
  (if count.length > 0 then [("count", count)] else [])

/-- Modelled from the spec: the `openapi` client is not among the source
files; List "GETs the collection path with optional sort/count query
parameters". -/
def listRequest (auth : config.AuthConfig) (sort count : String) : Request :=
  { Method := "GET"
    URL := "https://" ++ auth.Tenant ++ "/" ++ apiIdentitysources
    Query := listParams sort count
    Header := [("Accept", "application/json"), ("Authorization", "Bearer " ++ auth.Token)]
    Body := none }

/-- The request of `DeleteIdentitysource`. -/
def deleteRequest (auth : config.AuthConfig) (id : String) : Request :=
  { Method := "DELETE"
    URL := "https://" ++ auth.Tenant ++ "/" ++ apiIdentitysources ++ "/" ++ id
    Query := []
    Header := [("Content-Type", "application/json"), ("Authorization", "Bearer " ++ auth.Token)]
    Body := none }

/-- The request of `UpdateIdentitysource`. -/
def updateRequest (auth : config.AuthConfig) (id : String) (b : String) : Request :=
  { Method := "PUT"
    URL := "https://" ++ auth.Tenant ++ "/" ++ apiIdentitysources ++ "/" ++ id
    Query := []
    Header := [("Accept", "application/json"), ("Content-Type", "application/json"),
      ("Authorization", "Bearer " ++ auth.Token)]
    Body := some b }

/-- The word `encoding/json` uses for a value in an `UnmarshalTypeError`. -/
def jsonKind : JSON → String
  | .null => "null"
  | .bool _ => "bool"
  | .num _ => "number"
  | .str _ => "string"
  | .arr _ => "array"
  | .obj _ => "object"

/-- Indexing a Go map decoded from a JSON object: of two members with the same
key the later one stays. -/
def mapIndex (kvs : List (String × JSON)) (key : String) : Option JSON :=
  kvs.reverse.lookup key

/-- Lines 271 to 292 of `getIdentitysourceId`: decoding the body into a
`map[string]interface{}` and taking the `id` of the first element of
`identitySources`.  A top-level `null` leaves the map `nil`. -/
def extractId (name : String) : Except String JSON → Except String String
  | .error e => .error ("failed to parse response: " ++ e)
  | .ok (.obj data) =>
    match mapIndex data "identitySources" with
    | some (.arr (firstResource :: _)) =>
      match firstResource with
      | .obj fields =>
        match mapIndex fields "id" with
        | some (.str id) => .ok id
        | _ => .error "ID not found or invalid type"
      | _ => .error "invalid resource format"
    | _ => .error ("no identitysource found with identitysourceName " ++ name)
  | .ok .null => .error ("no identitysource found with identitysourceName " ++ name)
  | .ok v =>
    .error ("failed to parse response: json: cannot unmarshal " ++ jsonKind v ++
      " into Go value of type map[string]interface {}")

/-- Lines 264 to 292 of `getIdentitysourceId`, on the response received. -/
def resolveResponse (name : String) (response : Response) : Except String String :=
  match (if response.StatusCode ≠ 200 then
      HandleCommonErrors response "unable to get IdentitySource" else none) with
  | some err =>
    .error ("unable to get the IdentitySource with identitysourceName " ++ name ++
      "; err=" ++ err)
  | none => extractId name response.Parsed

/-- `IdentitysourceClient.getIdentitysourceId`.  The error of `client.Get` is
dropped by the code. -/
def getIdentitysourceId (client : Clientx) (auth : config.AuthConfig) (name : String) :
    Run (Except String String) :=
  match (client (searchRequest auth name)).1 with
  | none => { trace := [searchRequest auth name], outcome := .panic }
  | some response =>
    { trace := [searchRequest auth name], outcome := .ret (resolveResponse name response) }

/-- The decimal text `%d` prints for a status code. -/
def itoa (n : Int) : String := toString n

/-- What `resp.HTTPResponse.Request.URL` holds: the URL and the query of the
request sent. -/
def Request.target (r : Request) : String × List (String × String) :=
  (r.URL, r.Query)

/-- `IdentitysourceClient.CreateIdentitysource`: the confirmation text, or the
error. -/
def CreateIdentitysource (client : Clientx) (auth : config.AuthConfig)
    (identitysource : IdentitySource) : Run (Except String String) :=
  match identitysource.Marshalled with
  | .error _ => { trace := [], outcome := .ret (.error "unable to create identitysource") }
  | .ok body =>
    match client (createRequest auth body) with
    | (_, some _) =>
      { trace := [createRequest auth body],
        outcome := .ret (.error "unable to create identitysource") }
    | (none, none) => { trace := [createRequest auth body], outcome := .panic }
    | (some resp, none) =>
      if resp.StatusCode ≠ 201 then
        { trace := [createRequest auth body],
          outcome := .ret (.error ("unable to create the identitysource; code=" ++
            itoa resp.StatusCode ++ ", body=" ++ resp.Body)) }
      else
        { trace := [createRequest auth body],
          outcome := .ret (.ok "Identity provider created successfully") }

/-- `IdentitysourceClient.GetIdentitysource`.  The type
`openapi.IdentitySourceInstancesData` is not among the source files: `decode`
is `json.Unmarshal` of the body into it, `none` when it returns an error. -/
def GetIdentitysource {D : Type} (decode : Response → Option D) (client : Clientx)
    (auth : config.AuthConfig) (identitysourceName : String) :
    Run (Except String (D × String × List (String × String))) :=
  match getIdentitysourceId client auth identitysourceName with
  | { trace := tr, outcome := .panic } => { trace := tr, outcome := .panic }
  | { trace := tr, outcome := .ret (.error err) } => { trace := tr, outcome := .ret (.error err) }
  | { trace := tr, outcome := .ret (.ok id) } =>
    match client (getRequest auth id) with
    | (_, some err) => { trace := tr ++ [getRequest auth id], outcome := .ret (.error err) }
    | (none, none) => { trace := tr ++ [getRequest auth id], outcome := .panic }
    | (some resp, none) =>
      if resp.StatusCode ≠ 200 then
        { trace := tr ++ [getRequest auth id],
          outcome := .ret (.error "unable to get the IdentitySource") }
      else
        match decode resp with
        | none =>
          { trace := tr ++ [getRequest auth id],
            outcome := .ret (.error "unable to get the IdentitySource") }
        | some doc =>
          { trace := tr ++ [getRequest auth id],
            outcome := .ret (.ok (doc, (getRequest auth id).target)) }

/-- `IdentitysourceClient.GetIdentitysources`.  The type
`openapi.IdentitySourceIntancesDataList` is not among the source files:
`decode` is `json.Unmarshal` of the body into it. -/
def GetIdentitysources {D : Type} (decode : Response → Option D) (client : Clientx)
    (auth : config.AuthConfig) (sort count : String) :
    Run (Except String (D × String × List (String × String))) :=
  match client (listRequest auth sort count) with
  | (_, some err) => { trace := [listRequest auth sort count], outcome := .ret (.error err) }
  | (none, none) => { trace := [listRequest auth sort count], outcome := .panic }
  | (some resp, none) =>
    if resp.StatusCode ≠ 200 then
      { trace := [listRequest auth sort count],
        outcome := .ret (.error "unable to get the Identitysources") }
    else
      match decode resp with
      | none =>
        { trace := [listRequest auth sort count],
          outcome := .ret (.error "unable to get the Identitysources") }
      | some docs =>
        { trace := [listRequest auth sort count],
          outcome := .ret (.ok (docs, (listRequest auth sort count).target)) }

/-- `IdentitysourceClient.DeleteIdentitysource`; the value returned is the
error, `none` for `nil`. -/
def DeleteIdentitysource (client : Clientx) (auth : config.AuthConfig) (name : String) :
    Run (Option String) :=
  match getIdentitysourceId client auth name with
  | { trace := tr, outcome := .panic } => { trace := tr, outcome := .panic }
  | { trace := tr, outcome := .ret (.error err) } =>
    { trace := tr, outcome := .ret (some ("unable to get the identitysource ID; err=" ++ err)) }
  | { trace := tr, outcome := .ret (.ok id) } =>
    match client (deleteRequest auth id) with
    | (_, some err) =>
      { trace := tr ++ [deleteRequest auth id],
        outcome := .ret (some ("unable to delete the IdentitySource; err=" ++ err)) }
    | (none, none) => { trace := tr ++ [deleteRequest auth id], outcome := .panic }
    | (some response, none) =>
      if response.StatusCode ≠ 204 then
        match HandleCommonErrors response "unable to delete IdentitySource" with
        | some err =>
          { trace := tr ++ [deleteRequest auth id],
            outcome := .ret (some ("unable to delete the IdentitySource; err=" ++ err)) }
        | none =>
          { trace := tr ++ [deleteRequest auth id],
            outcome := .ret (some ("unable to delete the IdentitySource; code=" ++
              itoa response.StatusCode ++ ", body=" ++ response.Body)) }
      else { trace := tr ++ [deleteRequest auth id], outcome := .ret none }

/-- `IdentitysourceClient.UpdateIdentitysource`; the value returned is the
error, `none` for `nil`. -/
def UpdateIdentitysource (client : Clientx) (auth : config.AuthConfig)
    (identitysource : IdentitySource) : Run (Option String) :=
  match getIdentitysourceId client auth identitysource.InstanceName with
  | { trace := tr, outcome := .panic } => { trace := tr, outcome := .panic }
  | { trace := tr, outcome := .ret (.error err) } =>
    { trace := tr, outcome := .ret (some ("unable to get the identitysource ID; err=" ++ err)) }
  | { trace := tr, outcome := .ret (.ok id) } =>
    match identitysource.Marshalled with
    | .error _ => { trace := tr, outcome := .ret (some "unable to update identitysource.") }
    | .ok b =>
      match client (updateRequest auth id b) with
      | (_, some err) =>
        { trace := tr ++ [updateRequest auth id b],
          outcome := .ret (some ("unable to update identitysource; err=" ++ err)) }
      | (none, none) => { trace := tr ++ [updateRequest auth id b], outcome := .panic }
      | (some response, none) =>
        if response.StatusCode ≠ 204 then
          { trace := tr ++ [updateRequest auth id b],
            outcome := .ret (some ("failed to update identitysource ; code=" ++
              itoa response.StatusCode ++ ", body=" ++ response.Body)) }
        else { trace := tr ++ [updateRequest auth id b], outcome := .ret none }

/-- The session of the end-to-end scenarios of the spec. -/
def sampleAuth : config.AuthConfig :=
  { Tenant := "t.example.com", Token := "abc", User := false }

/-- A session whose token ends in a percent sign. -/
def percentAuth : config.AuthConfig :=
  { Tenant := "t.example.com", Token := "100%", User := false }

/-- A 200 search response with an empty `identitySources` array. -/
def emptySearchResponse : Response :=
  { StatusCode := 200
    Body := "\x7b\"identitySources\":[]\x7d"
    Parsed := .ok (.obj [("identitySources", .arr [])]) }

/-- A 200 search response whose body is the empty object. -/
def missingFieldResponse : Response :=
  { StatusCode := 200
    Body := "\x7b\x7d"
    Parsed := .ok (.obj []) }

/-- A 200 search response with two results, of ids 42 and 43. -/
def twoResultsResponse : Response :=
  { StatusCode := 200
    Body := "\x7b\"identitySources\":[\x7b\"id\":\"42\"\x7d,\x7b\"id\":\"43\"\x7d]\x7d"
    Parsed := .ok (.obj [("identitySources",
      .arr [.obj [("id", .str "42")], .obj [("id", .str "43")]])]) }

/-- A client that answers every request with the given response. -/
def constClient (response : Response) : Clientx :=
  fun _ => (some response, none)

/-- A document named `app1`. -/
def sampleDocument : IdentitySource :=
  { InstanceName := "app1"
    Marshalled := .ok "\x7b\"instanceName\":\"app1\"\x7d" }

/-- A 401 response with a plain-text body. -/
def unauthorizedResponse : Response :=
  { StatusCode := 401
    Body := "Unauthorized"
    Parsed := .error "invalid character 'U' looking for beginning of value" }

/-- A 500 response whose body nevertheless holds one search result, of id 42. -/
def serverErrorWithResultResponse : Response :=
  { StatusCode := 500
    Body := "\x7b\"identitySources\":[\x7b\"id\":\"42\"\x7d]\x7d"
    Parsed := .ok (.obj [("identitySources", .arr [.obj [("id", .str "42")]])]) }

/-- A client that answers the resolver's GET with two results, the first of
id 42, and every other request with the given response. -/
def resolveThenClient (answer : Response) : Clientx :=
  fun req => if req.Method = "GET" then (some twoResultsResponse, none) else (some answer, none)

/-- A decoder for `GetIdentitysource` and `GetIdentitysources` that keeps the
raw body. -/
def rawDecode (response : Response) : Option String :=
  some response.Body

/-- A client that answers the resolver's search with two results, the first
of id 42, and every request without a query with the given response. -/
def itemClient (answer : Response) : Clientx :=
  fun req => if req.Query = [] then (some answer, none) else (some twoResultsResponse, none)

end directory

end Verifyctl

/-! ## Theorems -/

namespace Verifyctl

namespace config

/-! ### Memory effect of `Merge` -/

theorem Merge_apply_self (h : Heap) (o c : Ptr) : Merge h o c o = h c := by
  by_cases hc : c = o
  · subst hc
    simp [Merge, store]
  · simp [Merge, store, hc]

theorem Merge_apply_ne (h : Heap) (o c q : Ptr) (hq : q ≠ o) : Merge h o c q = h q := by
  simp [Merge, store, hq]

theorem Merge_tenant (h : Heap) (o c q : Ptr) (ht : (h o).Tenant = (h c).Tenant) :
    (Merge h o c q).Tenant = (h q).Tenant := by
  by_cases hq : q = o
  · subst hq
    rw [Merge_apply_self, ht]
  · rw [Merge_apply_ne h o c q hq]

/-! ### The search loops -/

theorem addAuthLoop_eq_none (h : Heap) (config : Ptr) (l : List Ptr) :
    addAuthLoop h config l = none ↔ ∀ p ∈ l, (h p).Tenant ≠ (h config).Tenant := by
  induction l with
  | nil => simp [addAuthLoop]
  | cons c rest ih =>
    by_cases hc : (h c).Tenant = (h config).Tenant
    · simp [addAuthLoop, hc]
    · simp [addAuthLoop, hc, ih]

theorem addAuthLoop_eq_some (h : Heap) (config : Ptr) (l : List Ptr) (h1 : Heap)
    (hl : addAuthLoop h config l = some h1) :
    ∃ pre p post, l = pre ++ p :: post ∧
      (∀ q ∈ pre, (h q).Tenant ≠ (h config).Tenant) ∧
      (h p).Tenant = (h config).Tenant ∧ h1 = Merge h p config := by
  induction l with
  | nil => simp [addAuthLoop] at hl
  | cons c rest ih =>
    by_cases hc : (h c).Tenant = (h config).Tenant
    · simp [addAuthLoop, hc] at hl
      exact ⟨[], c, rest, rfl, by simp, hc, hl.symm⟩
    · simp [addAuthLoop, hc] at hl
      obtain ⟨pre, p, post, e, hpre, hp, hm⟩ := ih hl
      refine ⟨c :: pre, p, post, by simp [e], ?_, hp, hm⟩
      intro q hq
      rcases List.mem_cons.1 hq with rfl | hq
      · exact hc
      · exact hpre q hq

theorem getCurrentAuthLoop_eq_none (h : Heap) (t : String) (l : List Ptr) :
    getCurrentAuthLoop h t l = none ↔ ∀ p ∈ l, (h p).Tenant ≠ t := by
  induction l with
  | nil => simp [getCurrentAuthLoop]
  | cons c rest ih =>
    by_cases hc : (h c).Tenant = t
    · simp [getCurrentAuthLoop, hc]
    · simp [getCurrentAuthLoop, hc, ih]

theorem getCurrentAuthLoop_eq_some (h : Heap) (t : String) (l : List Ptr) (c : Ptr)
    (hl : getCurrentAuthLoop h t l = some c) :
    ∃ pre post, l = pre ++ c :: post ∧ (∀ q ∈ pre, (h q).Tenant ≠ t) ∧ (h c).Tenant = t := by
  induction l with
  | nil => simp [getCurrentAuthLoop] at hl
  | cons d rest ih =>
    by_cases hd : (h d).Tenant = t
    · simp [getCurrentAuthLoop, hd] at hl
      subst hl
      exact ⟨[], rest, rfl, by simp, hd⟩
    · simp [getCurrentAuthLoop, hd] at hl
      obtain ⟨pre, post, e, hpre, hc⟩ := ih hl
      refine ⟨d :: pre, post, by simp [e], ?_, hc⟩
      intro q hq
      rcases List.mem_cons.1 hq with rfl | hq
      · exact hd
      · exact hpre q hq

/-! ### The session store -/

/-- C1. `AddAuth` is replace-or-append.  If some stored session has the tenant
of `config`, the store itself (pointer list, hence length and order, and
`CurrentTenant`) is unchanged, the first stored session with that tenant ends
with the tenant, token and `isUser` flag of `config`, and every other session
object is unchanged; if none has, the new list is the old one with `config`
appended, nothing in memory changes and `CurrentTenant` is kept. -/
theorem AddAuth_replace_or_append (o : CLIConfig) (h : Heap) (config : Ptr) :
    ((∃ p ∈ o.Auth, (h p).Tenant = (h config).Tenant) →
      ∃ pre p post, o.Auth = pre ++ p :: post ∧
        (∀ q ∈ pre, (h q).Tenant ≠ (h config).Tenant) ∧
        (h p).Tenant = (h config).Tenant ∧
        (AddAuth o h config).1 = o ∧
        ((AddAuth o h config).2 p).Tenant = (h config).Tenant ∧
        ((AddAuth o h config).2 p).Token = (h config).Token ∧
        ((AddAuth o h config).2 p).User = (h config).User ∧
        ∀ q, q ≠ p → (AddAuth o h config).2 q = h q) ∧
    ((∀ p ∈ o.Auth, (h p).Tenant ≠ (h config).Tenant) →
      (AddAuth o h config).1.Auth = o.Auth ++ [config] ∧
      (AddAuth o h config).1.CurrentTenant = o.CurrentTenant ∧
      (AddAuth o h config).1.APIVersion = o.APIVersion ∧
      (AddAuth o h config).1.Kind = o.Kind ∧
      (AddAuth o h config).2 = h) := by
  constructor
  · rintro ⟨p0, hp0, hp0t⟩
    cases hl : addAuthLoop h config o.Auth with
    | none => exact absurd hp0t ((addAuthLoop_eq_none h config o.Auth).1 hl p0 hp0)
    | some h1 =>
      obtain ⟨pre, p, post, e, hpre, hp, hm⟩ := addAuthLoop_eq_some h config o.Auth h1 hl
      subst hm
      refine ⟨pre, p, post, e, hpre, hp, ?_, ?_, ?_, ?_, ?_⟩
      · simp [AddAuth, hl]
      · simp [AddAuth, hl, Merge_apply_self]
      · simp [AddAuth, hl, Merge_apply_self]
      · simp [AddAuth, hl, Merge_apply_self]
      · intro q hq
        simp [AddAuth, hl, Merge_apply_ne h p config q hq]
  · intro hall
    have hl := (addAuthLoop_eq_none h config o.Auth).2 hall
    simp [AddAuth, hl]

/-- C1, at the sample store: logging in again to `a.example.com` (the session
at address 2) rewrites the session at address 0 and nothing else. -/
theorem AddAuth_replace_or_append_witness :
    (∃ p ∈ sampleStore.Auth, (sampleHeap p).Tenant = (sampleHeap 2).Tenant) ∧
    ∃ pre p post, sampleStore.Auth = pre ++ p :: post ∧
      (∀ q ∈ pre, (sampleHeap q).Tenant ≠ (sampleHeap 2).Tenant) ∧
      (sampleHeap p).Tenant = (sampleHeap 2).Tenant ∧
      (AddAuth sampleStore sampleHeap 2).1 = sampleStore ∧
      ((AddAuth sampleStore sampleHeap 2).2 p).Tenant = (sampleHeap 2).Tenant ∧
      ((AddAuth sampleStore sampleHeap 2).2 p).Token = (sampleHeap 2).Token ∧
      ((AddAuth sampleStore sampleHeap 2).2 p).User = (sampleHeap 2).User ∧
      ∀ q, q ≠ p → (AddAuth sampleStore sampleHeap 2).2 q = sampleHeap q :=
  ⟨⟨0, by simp [sampleStore], rfl⟩,
   (AddAuth_replace_or_append sampleStore sampleHeap 2).1 ⟨0, by simp [sampleStore], rfl⟩⟩

/-- C2. Tenants stay pairwise distinct: they are in the new store, and
`AddAuth` and `SetCurrentTenant` keep them so. -/
theorem tenants_nodup_invariant :
    (∀ h, (tenants NewCLIConfig h).Nodup) ∧
    ∀ (o : CLIConfig) (h : Heap), (tenants o h).Nodup →
      (∀ config, (tenants (AddAuth o h config).1 (AddAuth o h config).2).Nodup) ∧
      (∀ t, (tenants (SetCurrentTenant o t) h).Nodup) := by
  refine ⟨fun h => by simp [tenants, NewCLIConfig], ?_⟩
  intro o h hnd
  refine ⟨?_, fun t => by simpa [tenants, SetCurrentTenant] using hnd⟩
  intro config
  cases hl : addAuthLoop h config o.Auth with
  | none =>
    have hall := (addAuthLoop_eq_none h config o.Auth).1 hl
    have e : tenants (AddAuth o h config).1 (AddAuth o h config).2
        = tenants o h ++ [(h config).Tenant] := by
      simp [AddAuth, hl, tenants]
    rw [e]
    refine List.Nodup.append hnd (List.nodup_singleton _) ?_
    intro t ht1 ht2
    simp only [List.mem_singleton] at ht2
    subst ht2
    simp only [tenants, List.mem_map] at ht1
    obtain ⟨p, hp, hpt⟩ := ht1
    exact hall p hp hpt
  | some h1 =>
    obtain ⟨pre, p, post, _, _, hp, hm⟩ := addAuthLoop_eq_some h config o.Auth h1 hl
    subst hm
    have e : tenants (AddAuth o h config).1 (AddAuth o h config).2 = tenants o h := by
      simp [AddAuth, hl, tenants, Merge_tenant h p config _ hp]
    rw [e]
    exact hnd

/-- C2, at the sample store. -/
theorem tenants_nodup_invariant_witness :
    (tenants sampleStore sampleHeap).Nodup ∧
    (∀ config, (tenants (AddAuth sampleStore sampleHeap config).1
        (AddAuth sampleStore sampleHeap config).2).Nodup) ∧
    (∀ t, (tenants (SetCurrentTenant sampleStore t) sampleHeap).Nodup) :=
  ⟨by decide, tenants_nodup_invariant.2 sampleStore sampleHeap (by decide)⟩

/-- C3, as stated, fails: with the current tenant unset (the empty string) and
a stored session whose tenant is the empty string, `GetCurrentAuth` returns
that session and no error. -/
theorem GetCurrentAuth_unset_counterexample :
    (AddAuth NewCLIConfig emptyTenantHeap 0).1.CurrentTenant = "" ∧
    GetCurrentAuth (AddAuth NewCLIConfig emptyTenantHeap 0).1
      (AddAuth NewCLIConfig emptyTenantHeap 0).2 = .ok 0 :=
  ⟨rfl, rfl⟩

/-- C3, amended. `GetCurrentAuth` fails with the no-login-session error exactly
when no stored session has tenant `CurrentTenant`; otherwise it returns the
first stored session whose tenant is `CurrentTenant`. -/
theorem GetCurrentAuth_spec (o : CLIConfig) (h : Heap) :
    ((∀ p ∈ o.Auth, (h p).Tenant ≠ o.CurrentTenant) →
      GetCurrentAuth o h = .error noLoginSession) ∧
    ((∃ p ∈ o.Auth, (h p).Tenant = o.CurrentTenant) →
      ∃ c pre post, GetCurrentAuth o h = .ok c ∧ o.Auth = pre ++ c :: post ∧
        (∀ q ∈ pre, (h q).Tenant ≠ o.CurrentTenant) ∧ (h c).Tenant = o.CurrentTenant) := by
  constructor
  · intro hall
    simp [GetCurrentAuth, (getCurrentAuthLoop_eq_none h o.CurrentTenant o.Auth).2 hall]
  · rintro ⟨p, hp, hpt⟩
    cases hl : getCurrentAuthLoop h o.CurrentTenant o.Auth with
    | none => exact absurd hpt ((getCurrentAuthLoop_eq_none h _ _).1 hl p hp)
    | some c =>
      obtain ⟨pre, post, e, hpre, hc⟩ := getCurrentAuthLoop_eq_some h _ _ c hl
      exact ⟨c, pre, post, by simp [GetCurrentAuth, hl], e, hpre, hc⟩

/-- C3 amended, at the sample store, whose current tenant is the second
session. -/
theorem GetCurrentAuth_spec_witness :
    (∃ p ∈ sampleStore.Auth, (sampleHeap p).Tenant = sampleStore.CurrentTenant) ∧
    ∃ c pre post, GetCurrentAuth sampleStore sampleHeap = .ok c ∧
      sampleStore.Auth = pre ++ c :: post ∧
      (∀ q ∈ pre, (sampleHeap q).Tenant ≠ sampleStore.CurrentTenant) ∧
      (sampleHeap c).Tenant = sampleStore.CurrentTenant :=
  ⟨⟨1, by simp [sampleStore], rfl⟩,
   (GetCurrentAuth_spec sampleStore sampleHeap).2 ⟨1, by simp [sampleStore], rfl⟩⟩

end config

end Verifyctl

namespace Verifyctl

namespace module

/-! ### The error classifier -/

/-- C4. For status 401, 403 and 404 `HandleCommonErrors` returns the
"Login again." error, the forbidden error and the "Resource not found" error,
whatever the body and the default message; the three differ pairwise. -/
theorem HandleCommonErrors_401_403_404 (body : String) (parsed : Except String JSON)
    (defaultError : String) :
    HandleCommonErrors { StatusCode := 401, Body := body, Parsed := parsed } defaultError
      = some "Login again." ∧
    HandleCommonErrors { StatusCode := 403, Body := body, Parsed := parsed } defaultError
      = some forbidden ∧
    HandleCommonErrors { StatusCode := 404, Body := body, Parsed := parsed } defaultError
      = some "Resource not found" ∧
    "Login again." ≠ forbidden ∧ forbidden ≠ "Resource not found" ∧
    "Login again." ≠ "Resource not found" := by
  refine ⟨rfl, rfl, rfl, by decide, by decide, by decide⟩

/-! A member-by-member account of the decoding of a 400 body. -/

theorem verifyErrorField_cases (key : String) :
    verifyErrorField key = none ∨ verifyErrorField key = some 0 ∨
      verifyErrorField key = some 1 := by
  unfold verifyErrorField
  split_ifs <;> simp

theorem unmarshalMember_eq (acc : VerifyError × Bool) (kv : String × JSON) :
    unmarshalMember acc kv
      = ({ MessageID := (memberText 0 kv).getD acc.1.MessageID,
           MessageDescription := (memberText 1 kv).getD acc.1.MessageDescription },
         acc.2 || wrongType kv) := by
  obtain ⟨k, v⟩ := kv
  obtain ⟨⟨a, b⟩, f⟩ := acc
  rcases verifyErrorField_cases k with h | h | h <;>
    cases v <;> simp [unmarshalMember, memberText, wrongType, h]

theorem foldl_unmarshalMember (kvs : List (String × JSON)) (acc : VerifyError × Bool) :
    kvs.foldl unmarshalMember acc
      = ({ MessageID := ((kvs.reverse.filterMap (memberText 0)).head?).getD acc.1.MessageID,
           MessageDescription :=
             ((kvs.reverse.filterMap (memberText 1)).head?).getD acc.1.MessageDescription },
         acc.2 || kvs.any wrongType) := by
  induction kvs generalizing acc with
  | nil => simp
  | cons kv rest ih =>
    rw [List.foldl_cons, ih, unmarshalMember_eq]
    simp only [List.reverse_cons, List.filterMap_append, List.any_cons, Bool.or_assoc]
    congr 1
    congr 1
    · cases h0 : List.filterMap (memberText 0) rest.reverse with
      | nil => cases hm : memberText 0 kv <;> simp [List.filterMap, hm]
      | cons x xs => simp
    · cases h1 : List.filterMap (memberText 1) rest.reverse with
      | nil => cases hm : memberText 1 kv <;> simp [List.filterMap, hm]
      | cons x xs => simp

theorem unmarshalVerifyError_obj (kvs : List (String × JSON)) :
    unmarshalVerifyError (.ok (.obj kvs))
      = if kvs.any wrongType then none
        else some { MessageID := fieldText 0 kvs, MessageDescription := fieldText 1 kvs } := by
  unfold unmarshalVerifyError
  simp only [foldl_unmarshalMember, fieldText, Bool.false_or]

theorem filterMap_memberText_unknown (i : Nat) (l : List (String × JSON))
    (hl : ∀ kv ∈ l, verifyErrorField kv.1 = none) : l.filterMap (memberText i) = [] := by
  induction l with
  | nil => rfl
  | cons kv rest ih =>
    have hk : memberText i kv = none := by
      have h := hl kv (by simp)
      unfold memberText
      cases kv.2 <;> simp [h]
    rw [List.filterMap_cons_none hk]
    exact ih (fun kv' hkv => hl kv' (by simp [hkv]))

theorem any_wrongType_unknown (l : List (String × JSON))
    (hl : ∀ kv ∈ l, verifyErrorField kv.1 = none) : l.any wrongType = false := by
  rw [List.any_eq_false]
  intro kv hkv
  have h := hl kv hkv
  simp [wrongType, h]

theorem HandleCommonErrors_badRequest_obj (body defaultError : String)
    (kvs : List (String × JSON)) :
    HandleCommonErrors (badRequest body (.ok (.obj kvs))) defaultError
      = if kvs.any wrongType then some defaultError
        else some (fieldText 0 kvs ++ " " ++ fieldText 1 kvs) := by
  simp only [HandleCommonErrors, badRequest, unmarshalVerifyError_obj]
  cases kvs.any wrongType <;> simp [MakeSimpleError]

/-- C5. For status 400.  Parsed: an object holding `messageId` X and
`messageDescription` Y as strings, in either order and among any members of
other keys, gives the error "X Y"; more generally every object whose
`messageId` and `messageDescription` members, if any, hold strings or `null`
gives the text of the first field, a space, and the text of the second, so
that `{}`, and likewise `null`, give a single space.  Not parsed: a body with
a syntax error, a body whose top-level value is a boolean, number, string or
array, and an object in which `messageId` or `messageDescription` holds
anything but a string or `null`, give the default message. -/
theorem HandleCommonErrors_400 (body defaultError : String) :
    (∀ X Y : String,
      HandleCommonErrors (badRequest body (.ok (verifyErrorBody X Y))) defaultError
        = some (X ++ " " ++ Y)) ∧
    (∀ (X Y : String) (pre mid post : List (String × JSON)),
      (∀ kv ∈ pre ++ mid ++ post, verifyErrorField kv.1 = none) →
      HandleCommonErrors (badRequest body (.ok (.obj
          (pre ++ ("messageId", .str X) :: mid ++ ("messageDescription", .str Y) :: post))))
        defaultError = some (X ++ " " ++ Y) ∧
      HandleCommonErrors (badRequest body (.ok (.obj
          (pre ++ ("messageDescription", .str Y) :: mid ++ ("messageId", .str X) :: post))))
        defaultError = some (X ++ " " ++ Y)) ∧
    (∀ kvs : List (String × JSON), kvs.any wrongType = false →
      HandleCommonErrors (badRequest body (.ok (.obj kvs))) defaultError
        = some (fieldText 0 kvs ++ " " ++ fieldText 1 kvs)) ∧
    HandleCommonErrors (badRequest body (.ok .null)) defaultError = some " " ∧
    HandleCommonErrors (badRequest body (.ok (.obj []))) defaultError = some " " ∧
    (∀ e, HandleCommonErrors (badRequest body (.error e)) defaultError = some defaultError) ∧
    (∀ b, HandleCommonErrors (badRequest body (.ok (.bool b))) defaultError
      = some defaultError) ∧
    (∀ n, HandleCommonErrors (badRequest body (.ok (.num n))) defaultError
      = some defaultError) ∧
    (∀ s, HandleCommonErrors (badRequest body (.ok (.str s))) defaultError
      = some defaultError) ∧
    (∀ xs, HandleCommonErrors (badRequest body (.ok (.arr xs))) defaultError
      = some defaultError) ∧
    (∀ kvs : List (String × JSON), kvs.any wrongType = true →
      HandleCommonErrors (badRequest body (.ok (.obj kvs))) defaultError = some defaultError) ∧
    (∀ (k : String) (v : JSON) (pre post : List (String × JSON)),
      (k = "messageId" ∨ k = "messageDescription") →
      (v ≠ .null ∧ ∀ s, v ≠ .str s) →
      HandleCommonErrors (badRequest body (.ok (.obj (pre ++ (k, v) :: post)))) defaultError
        = some defaultError) ∧
    (∀ parsed, unmarshalVerifyError parsed = none →
      HandleCommonErrors (badRequest body parsed) defaultError = some defaultError) := by
  refine ⟨fun _ _ => rfl, ?_, ?_, rfl, rfl, fun _ => rfl, fun _ => rfl, fun _ => rfl,
    fun _ => rfl, fun _ => rfl, ?_, ?_, ?_⟩
  · intro X Y pre mid post hunk
    have hpre : ∀ kv ∈ pre.reverse, verifyErrorField kv.1 = none :=
      fun kv h => hunk kv (by simp [List.mem_reverse.1 h])
    have hmid : ∀ kv ∈ mid.reverse, verifyErrorField kv.1 = none :=
      fun kv h => hunk kv (by simp [List.mem_reverse.1 h])
    have hpost : ∀ kv ∈ post.reverse, verifyErrorField kv.1 = none :=
      fun kv h => hunk kv (by simp [List.mem_reverse.1 h])
    have hany : ∀ l : List (String × JSON),
        (∀ kv ∈ l.reverse, verifyErrorField kv.1 = none) →
        l.any wrongType = false :=
      fun l h => any_wrongType_unknown l (fun kv hkv => h kv (List.mem_reverse.2 hkv))
    have wX : wrongType ("messageId", JSON.str X) = false := rfl
    have wY : wrongType ("messageDescription", JSON.str Y) = false := rfl
    have m0X : memberText 0 ("messageId", JSON.str X) = some X := rfl
    have m1X : memberText 1 ("messageId", JSON.str X) = none := rfl
    have m0Y : memberText 0 ("messageDescription", JSON.str Y) = none := rfl
    have m1Y : memberText 1 ("messageDescription", JSON.str Y) = some Y := rfl
    constructor
    · rw [HandleCommonErrors_badRequest_obj]
      simp [fieldText, List.filterMap_append, List.filterMap_cons,
        filterMap_memberText_unknown _ _ hpre, filterMap_memberText_unknown _ _ hmid,
        filterMap_memberText_unknown _ _ hpost, hany pre hpre, hany mid hmid,
        hany post hpost, wX, wY, m0X, m1X, m0Y, m1Y]
    · rw [HandleCommonErrors_badRequest_obj]
      simp [fieldText, List.filterMap_append, List.filterMap_cons,
        filterMap_memberText_unknown _ _ hpre, filterMap_memberText_unknown _ _ hmid,
        filterMap_memberText_unknown _ _ hpost, hany pre hpre, hany mid hmid,
        hany post hpost, wX, wY, m0X, m1X, m0Y, m1Y]
  · intro kvs h
    rw [HandleCommonErrors_badRequest_obj, h]
    rfl
  · intro kvs h
    rw [HandleCommonErrors_badRequest_obj, h]
    rfl
  · intro k v pre post hk hv
    rw [HandleCommonErrors_badRequest_obj]
    have hw : wrongType (k, v) = true := by
      rcases hk with rfl | rfl <;> cases v <;> simp_all [wrongType, verifyErrorField]
    simp [hw]
  · intro parsed hp
    simp [HandleCommonErrors, badRequest, hp, MakeSimpleError]

/-- C5, on an object with the two members in the other order and a member of
another key between them. -/
theorem HandleCommonErrors_400_witness :
    (∀ kv ∈ ([] : List (String × JSON)) ++ [("status", JSON.num "400")] ++ [],
      verifyErrorField kv.1 = none) ∧
    HandleCommonErrors reorderedResponse "unable to delete IdentitySource"
      = some ("CSIAI0400E" ++ " " ++ "Bad filter") :=
  ⟨by decide,
   ((HandleCommonErrors_400 reorderedResponse.Body "unable to delete IdentitySource").2.1
      "CSIAI0400E" "Bad filter" [] [("status", JSON.num "400")] [] (by decide)).2⟩

/-- C6, as stated, fails: for status 500 `HandleCommonErrors` returns `nil`. -/
theorem HandleCommonErrors_500_counterexample :
    serverErrorResponse.StatusCode = 500 ∧
    HandleCommonErrors serverErrorResponse "unable to delete IdentitySource" = none :=
  ⟨rfl, rfl⟩

/-- C6, amended. `HandleCommonErrors` returns `nil` exactly when the status is
none of 400, 401, 403 and 404; so it does for every status in 200..299. -/
theorem HandleCommonErrors_eq_none_iff (response : Response) (defaultError : String) :
    (HandleCommonErrors response defaultError = none ↔
      response.StatusCode ≠ 400 ∧ response.StatusCode ≠ 401 ∧
      response.StatusCode ≠ 403 ∧ response.StatusCode ≠ 404) ∧
    (200 ≤ response.StatusCode ∧ response.StatusCode ≤ 299 →
      HandleCommonErrors response defaultError = none) := by
  have key : HandleCommonErrors response defaultError = none ↔
      response.StatusCode ≠ 400 ∧ response.StatusCode ≠ 401 ∧
      response.StatusCode ≠ 403 ∧ response.StatusCode ≠ 404 := by
    unfold HandleCommonErrors
    by_cases h1 : response.StatusCode = 401
    · simp [h1]
    · by_cases h3 : response.StatusCode = 403
      · simp [h3]
      · by_cases h0 : response.StatusCode = 400
        · simp only [h0]
          cases unmarshalVerifyError response.Parsed <;> simp [MakeSimpleError]
        · by_cases h4 : response.StatusCode = 404
          · simp [h4]
          · simp [h1, h3, h0, h4]
  refine ⟨key, fun hr => key.2 ?_⟩
  omega

/-- C6 amended, at status 204. -/
theorem HandleCommonErrors_eq_none_iff_witness :
    (200 ≤ noContentResponse.StatusCode ∧ noContentResponse.StatusCode ≤ 299) ∧
    HandleCommonErrors noContentResponse "unable to delete IdentitySource" = none :=
  ⟨by decide, (HandleCommonErrors_eq_none_iff noContentResponse _).2 (by decide)⟩

end module

end Verifyctl

namespace Verifyctl

namespace directory

open module

/-! ### The name resolver -/

theorem getIdentitysourceId_trace (client : Clientx) (auth : config.AuthConfig)
    (name : String) :
    (getIdentitysourceId client auth name).trace = [searchRequest auth name] := by
  unfold getIdentitysourceId
  cases (client (searchRequest auth name)).1 <;> rfl

theorem getIdentitysourceId_of_response (client : Clientx) (auth : config.AuthConfig)
    (name : String) (response : Response)
    (hget : (client (searchRequest auth name)).1 = some response) :
    (getIdentitysourceId client auth name).outcome = .ret (resolveResponse name response) := by
  simp [getIdentitysourceId, hget]

theorem resolveResponse_ok (name : String) (response : Response)
    (hstatus : response.StatusCode = 200) :
    resolveResponse name response = extractId name response.Parsed := by
  simp [resolveResponse, hstatus]

/-- C7. On a 200 search response whose body is an object with an
`identitySources` array: an empty array gives the not-found error naming the
requested name; a first element that is an object with a string `id` gives
that `id`, whatever follows it; a first element that is an object whose `id`
is missing or not a string gives the error "ID not found or invalid type"; a
first element that is no object (a string, number, boolean, `null` or array),
and so has no `id`, gives the error "invalid resource format"; hence every
first element that is not an object with a string `id` gives an error and no
id. -/
theorem getIdentitysourceId_200 (client : Clientx) (auth : config.AuthConfig)
    (name : String) (response : Response) (data : List (String × JSON)) (xs : List JSON)
    (hget : (client (searchRequest auth name)).1 = some response)
    (hstatus : response.StatusCode = 200)
    (hbody : response.Parsed = .ok (.obj data))
    (hsrc : mapIndex data "identitySources" = some (.arr xs)) :
    (xs = [] → (getIdentitysourceId client auth name).outcome
      = .ret (.error ("no identitysource found with identitysourceName " ++ name))) ∧
    (∀ fields rest s, xs = .obj fields :: rest → mapIndex fields "id" = some (.str s) →
      (getIdentitysourceId client auth name).outcome = .ret (.ok s)) ∧
    (∀ fields rest, xs = .obj fields :: rest → (∀ s, mapIndex fields "id" ≠ some (.str s)) →
      (getIdentitysourceId client auth name).outcome
        = .ret (.error "ID not found or invalid type")) ∧
    (∀ first rest, xs = first :: rest → (∀ fields, first ≠ .obj fields) →
      (getIdentitysourceId client auth name).outcome
        = .ret (.error "invalid resource format")) ∧
    (∀ first rest, xs = first :: rest →
      (∀ fields s, first = .obj fields → mapIndex fields "id" ≠ some (.str s)) →
      ∃ e, (getIdentitysourceId client auth name).outcome = .ret (.error e)) := by
  rw [getIdentitysourceId_of_response client auth name response hget,
    resolveResponse_ok name response hstatus, hbody]
  have hthird : ∀ fields rest, xs = .obj fields :: rest →
      (∀ s, mapIndex fields "id" ≠ some (.str s)) →
      extractId name (.ok (.obj data)) = .error "ID not found or invalid type" := by
    intro fields rest hx hid
    subst hx
    cases hf : mapIndex fields "id" with
    | none => simp [extractId, hsrc, hf]
    | some v =>
      cases v with
      | str s => exact absurd hf (hid s)
      | _ => simp [extractId, hsrc, hf]
  have hfourth : ∀ first rest, xs = first :: rest → (∀ fields, first ≠ .obj fields) →
      extractId name (.ok (.obj data)) = .error "invalid resource format" := by
    intro first rest hx hno
    subst hx
    cases first with
    | obj fields => exact absurd rfl (hno fields)
    | _ => simp [extractId, hsrc]
  refine ⟨?_, ?_, ?_, ?_, ?_⟩
  · intro hx
    subst hx
    simp [extractId, hsrc]
  · intro fields rest s hx hid
    subst hx
    simp [extractId, hsrc, hid]
  · intro fields rest hx hid
    rw [hthird fields rest hx hid]
  · intro first rest hx hno
    rw [hfourth first rest hx hno]
  · intro first rest hx hid
    cases first with
    | obj fields =>
      exact ⟨_, congrArg Outcome.ret (hthird fields rest hx (fun s => hid fields s rfl))⟩
    | null => exact ⟨_, congrArg Outcome.ret (hfourth _ rest hx (fun _ h => by cases h))⟩
    | bool b => exact ⟨_, congrArg Outcome.ret (hfourth _ rest hx (fun _ h => by cases h))⟩
    | num n => exact ⟨_, congrArg Outcome.ret (hfourth _ rest hx (fun _ h => by cases h))⟩
    | str t => exact ⟨_, congrArg Outcome.ret (hfourth _ rest hx (fun _ h => by cases h))⟩
    | arr ys => exact ⟨_, congrArg Outcome.ret (hfourth _ rest hx (fun _ h => by cases h))⟩

/-- C7, on a response with two results: the id of the first is returned. -/
theorem getIdentitysourceId_200_witness :
    (getIdentitysourceId (constClient twoResultsResponse) sampleAuth "app1").outcome
      = .ret (.ok "42") :=
  (getIdentitysourceId_200 (constClient twoResultsResponse) sampleAuth "app1"
    twoResultsResponse [("identitySources",
      .arr [.obj [("id", .str "42")], .obj [("id", .str "43")]])]
    [.obj [("id", .str "42")], .obj [("id", .str "43")]] rfl rfl rfl rfl).2.1
    [("id", .str "42")] [.obj [("id", .str "43")]] "42" rfl rfl

/-- C8, as stated, fails: on the body `{}`, which has no `identitySources`
field, the error is the very one returned for an empty array. -/
theorem getIdentitysourceId_missing_field_counterexample :
    (getIdentitysourceId (constClient missingFieldResponse) sampleAuth "app1").outcome
      = .ret (.error "no identitysource found with identitysourceName app1") ∧
    (getIdentitysourceId (constClient emptySearchResponse) sampleAuth "app1").outcome
      = .ret (.error "no identitysource found with identitysourceName app1") :=
  ⟨rfl, rfl⟩

/-- C8, amended. On a 200 search response whose body is an object with no
`identitySources` field, the resolver fails with the not-found error naming the
requested name, the same error as for a present and empty array. -/
theorem getIdentitysourceId_missing_field (client : Clientx) (auth : config.AuthConfig)
    (name : String) (response : Response) (data : List (String × JSON))
    (hget : (client (searchRequest auth name)).1 = some response)
    (hstatus : response.StatusCode = 200)
    (hbody : response.Parsed = .ok (.obj data))
    (hsrc : mapIndex data "identitySources" = none) :
    (getIdentitysourceId client auth name).outcome
      = .ret (.error ("no identitysource found with identitysourceName " ++ name)) ∧
    (getIdentitysourceId client auth name).outcome
      = (getIdentitysourceId (constClient emptySearchResponse) auth name).outcome := by
  have h1 : (getIdentitysourceId client auth name).outcome
      = .ret (.error ("no identitysource found with identitysourceName " ++ name)) := by
    rw [getIdentitysourceId_of_response client auth name response hget,
      resolveResponse_ok name response hstatus, hbody]
    simp [extractId, hsrc]
  exact ⟨h1, h1.trans rfl⟩

/-- C8 amended, on the body `{}`. -/
theorem getIdentitysourceId_missing_field_witness :
    (getIdentitysourceId (constClient missingFieldResponse) sampleAuth "app1").outcome
      = .ret (.error ("no identitysource found with identitysourceName " ++ "app1")) ∧
    (getIdentitysourceId (constClient missingFieldResponse) sampleAuth "app1").outcome
      = (getIdentitysourceId (constClient emptySearchResponse) sampleAuth "app1").outcome :=
  getIdentitysourceId_missing_field (constClient missingFieldResponse) sampleAuth "app1"
    missingFieldResponse [] rfl rfl rfl rfl

/-! ### Resolve, then act -/

/-- C9. When the resolver returns an error, `DeleteIdentitysource` and
`UpdateIdentitysource` return an error that ends with the resolver's message,
and the only request issued is the resolver's GET: no DELETE, no PUT. -/
theorem resolve_error_stops (client : Clientx) (auth : config.AuthConfig) (e : String) :
    (∀ name, (getIdentitysourceId client auth name).outcome = .ret (.error e) →
      (DeleteIdentitysource client auth name).outcome
        = .ret (some ("unable to get the identitysource ID; err=" ++ e)) ∧
      (DeleteIdentitysource client auth name).trace = [searchRequest auth name]) ∧
    (∀ identitysource : IdentitySource,
      (getIdentitysourceId client auth identitysource.InstanceName).outcome
        = .ret (.error e) →
      (UpdateIdentitysource client auth identitysource).outcome
        = .ret (some ("unable to get the identitysource ID; err=" ++ e)) ∧
      (UpdateIdentitysource client auth identitysource).trace
        = [searchRequest auth identitysource.InstanceName]) ∧
    (∀ name, (searchRequest auth name).Method = "GET") := by
  refine ⟨?_, ?_, fun _ => rfl⟩
  · intro name h
    have ht := getIdentitysourceId_trace client auth name
    unfold DeleteIdentitysource
    cases hr : getIdentitysourceId client auth name with
    | mk tr out =>
      rw [hr] at h ht
      simp only at h ht
      subst h ht
      exact ⟨rfl, rfl⟩
  · intro identitysource h
    have ht := getIdentitysourceId_trace client auth identitysource.InstanceName
    unfold UpdateIdentitysource
    cases hr : getIdentitysourceId client auth identitysource.InstanceName with
    | mk tr out =>
      rw [hr] at h ht
      simp only at h ht
      subst h ht
      exact ⟨rfl, rfl⟩

/-- C9, in the scenario of the spec: an update of `app1` when the search
returns no match. -/
theorem resolve_error_stops_witness :
    (getIdentitysourceId (constClient emptySearchResponse) sampleAuth
        sampleDocument.InstanceName).outcome
      = .ret (.error "no identitysource found with identitysourceName app1") ∧
    (UpdateIdentitysource (constClient emptySearchResponse) sampleAuth sampleDocument).outcome
      = .ret (some ("unable to get the identitysource ID; err=" ++
          "no identitysource found with identitysourceName app1")) ∧
    (UpdateIdentitysource (constClient emptySearchResponse) sampleAuth sampleDocument).trace
      = [searchRequest sampleAuth sampleDocument.InstanceName] :=
  ⟨rfl, (resolve_error_stops (constClient emptySearchResponse) sampleAuth
    "no identitysource found with identitysourceName app1").2.1 sampleDocument rfl⟩

/-! ### The `Authorization` header -/

theorem run_of_no_percent (cs : List Char) (h : '%' ∉ cs) : fmt.run 0 cs = cs := by
  induction cs with
  | nil => rfl
  | cons c cs ih =>
    have hc : c ≠ '%' := fun e => h (by simp [e])
    have hcs : '%' ∉ cs := fun e => h (by simp [e])
    simp [fmt.run, hc, ih hcs]

theorem Sprintf0_of_no_percent (format : String) (h : '%' ∉ format.toList) :
    fmt.Sprintf0 format = format := by
  unfold fmt.Sprintf0
  rw [run_of_no_percent _ h]
  rfl

/-- The header built by the five requests other than Get's is `Bearer `
followed by the token, for every token. -/
theorem authorization_header (auth : config.AuthConfig) (name id body sort count : String) :
    (searchRequest auth name).header "Authorization" = some ("Bearer " ++ auth.Token) ∧
    (createRequest auth body).header "Authorization" = some ("Bearer " ++ auth.Token) ∧
    (listRequest auth sort count).header "Authorization" = some ("Bearer " ++ auth.Token) ∧
    (deleteRequest auth id).header "Authorization" = some ("Bearer " ++ auth.Token) ∧
    (updateRequest auth id body).header "Authorization" = some ("Bearer " ++ auth.Token) :=
  ⟨rfl, rfl, rfl, rfl, rfl⟩

/-- The header built by Get's request is `Bearer ` followed by the token when
the token has no percent sign. -/
theorem getRequest_authorization_of_no_percent (auth : config.AuthConfig) (id : String)
    (h : '%' ∉ auth.Token.toList) :
    (getRequest auth id).header "Authorization" = some ("Bearer " ++ auth.Token) := by
  have hb : '%' ∉ ("Bearer " ++ auth.Token).toList := by
    simp only [String.toList, String.data_append, List.mem_append, not_or]
    exact ⟨by decide, h⟩
  have e : (getRequest auth id).header "Authorization"
      = some (fmt.Sprintf0 ("Bearer " ++ auth.Token)) := rfl
  rw [e, Sprintf0_of_no_percent _ hb]

/-- C10 fails for `GetIdentitysource`: for the token `100%` the header of its
request is `Bearer 100%!(NOVERB)`, not `Bearer 100%`, while the resolver's
request for the same session carries `Bearer 100%`. -/
theorem getRequest_authorization_percent :
    (getRequest percentAuth "42").header "Authorization" = some "Bearer 100%!(NOVERB)" ∧
    (getRequest percentAuth "42").header "Authorization"
      ≠ some ("Bearer " ++ percentAuth.Token) ∧
    (searchRequest percentAuth "app1").header "Authorization"
      = some ("Bearer " ++ percentAuth.Token) := by
  decide

/-! ### Errors of the primary request -/

theorem getIdentitysourceId_eq (client : Clientx) (auth : config.AuthConfig) (name : String)
    (r : Except String String)
    (hres : (getIdentitysourceId client auth name).outcome = .ret r) :
    getIdentitysourceId client auth name
      = { trace := [searchRequest auth name], outcome := .ret r } := by
  have ht := getIdentitysourceId_trace client auth name
  cases hr : getIdentitysourceId client auth name with
  | mk tr out =>
    rw [hr] at hres ht
    simp only at hres ht
    subst hres ht
    rfl

/-- A response to the DELETE whose status is not 204 goes through
`HandleCommonErrors`: its message, when there is one, is what the error of
`DeleteIdentitysource` ends with; otherwise the error holds code and body. -/
theorem DeleteIdentitysource_of_response (client : Clientx) (auth : config.AuthConfig)
    (name id : String) (response : Response)
    (hres : (getIdentitysourceId client auth name).outcome = .ret (.ok id))
    (hdel : client (deleteRequest auth id) = (some response, none))
    (hstatus : response.StatusCode ≠ 204) :
    (∀ m, HandleCommonErrors response "unable to delete IdentitySource" = some m →
      (DeleteIdentitysource client auth name).outcome
        = .ret (some ("unable to delete the IdentitySource; err=" ++ m))) ∧
    (HandleCommonErrors response "unable to delete IdentitySource" = none →
      (DeleteIdentitysource client auth name).outcome
        = .ret (some ("unable to delete the IdentitySource; code=" ++
            itoa response.StatusCode ++ ", body=" ++ response.Body))) := by
  have he := getIdentitysourceId_eq client auth name (.ok id) hres
  constructor
  · intro m hm
    simp [DeleteIdentitysource, he, hdel, hstatus, hm]
  · intro hm
    simp [DeleteIdentitysource, he, hdel, hstatus, hm]

/-- A response to the PUT whose status is not 204 does not go through
`HandleCommonErrors`: the error of `UpdateIdentitysource` holds code and body,
whatever the status. -/
theorem UpdateIdentitysource_of_response (client : Clientx) (auth : config.AuthConfig)
    (identitysource : IdentitySource) (id b : String) (response : Response)
    (hres : (getIdentitysourceId client auth identitysource.InstanceName).outcome
      = .ret (.ok id))
    (hb : identitysource.Marshalled = .ok b)
    (hput : client (updateRequest auth id b) = (some response, none))
    (hstatus : response.StatusCode ≠ 204) :
    (UpdateIdentitysource client auth identitysource).outcome
      = .ret (some ("failed to update identitysource ; code=" ++
          itoa response.StatusCode ++ ", body=" ++ response.Body)) := by
  have he := getIdentitysourceId_eq client auth identitysource.InstanceName (.ok id) hres
  simp [UpdateIdentitysource, he, hb, hput, hstatus]

/-- A response to the POST whose status is not 201 does not go through
`HandleCommonErrors`: the error of `CreateIdentitysource` holds code and
body. -/
theorem CreateIdentitysource_of_response (client : Clientx) (auth : config.AuthConfig)
    (identitysource : IdentitySource) (body : String) (resp : Response)
    (hb : identitysource.Marshalled = .ok body)
    (hpost : client (createRequest auth body) = (some resp, none))
    (hstatus : resp.StatusCode ≠ 201) :
    (CreateIdentitysource client auth identitysource).outcome
      = .ret (.error ("unable to create the identitysource; code=" ++
          itoa resp.StatusCode ++ ", body=" ++ resp.Body)) := by
  simp [CreateIdentitysource, hb, hpost, hstatus]

/-- A response to the GET of the item whose status is not 200 gives the fixed
error of `GetIdentitysource`. -/
theorem GetIdentitysource_of_response {D : Type} (decode : Response → Option D)
    (client : Clientx) (auth : config.AuthConfig) (name id : String) (resp : Response)
    (hres : (getIdentitysourceId client auth name).outcome = .ret (.ok id))
    (hget : client (getRequest auth id) = (some resp, none))
    (hstatus : resp.StatusCode ≠ 200) :
    (GetIdentitysource decode client auth name).outcome
      = .ret (.error "unable to get the IdentitySource") := by
  have he := getIdentitysourceId_eq client auth name (.ok id) hres
  simp [GetIdentitysource, he, hget, hstatus]

/-- A response to the GET of the collection whose status is not 200 gives the
fixed error of `GetIdentitysources`. -/
theorem GetIdentitysources_of_response {D : Type} (decode : Response → Option D)
    (client : Clientx) (auth : config.AuthConfig) (sort count : String) (resp : Response)
    (hget : client (listRequest auth sort count) = (some resp, none))
    (hstatus : resp.StatusCode ≠ 200) :
    (GetIdentitysources decode client auth sort count).outcome
      = .ret (.error "unable to get the Identitysources") := by
  simp [GetIdentitysources, hget, hstatus]

/-- C11 fails for `UpdateIdentitysource`: a 401 response to the PUT, for which
`HandleCommonErrors` returns "Login again.", gives an error holding code and
body, in which "Login again." does not occur; the same response to the DELETE
of `DeleteIdentitysource` gives an error that ends with "Login again.". -/
theorem UpdateIdentitysource_401_unclassified :
    unauthorizedResponse.StatusCode = 401 ∧
    HandleCommonErrors unauthorizedResponse "unable to update identitysource"
      = some "Login again." ∧
    (UpdateIdentitysource (resolveThenClient unauthorizedResponse) sampleAuth
        sampleDocument).outcome
      = .ret (some "failed to update identitysource ; code=401, body=Unauthorized") ∧
    ¬ ("Login again.".toList <:+:
        "failed to update identitysource ; code=401, body=Unauthorized".toList) ∧
    (DeleteIdentitysource (resolveThenClient unauthorizedResponse) sampleAuth "app1").outcome
      = .ret (some "unable to delete the IdentitySource; err=Login again.") :=
  ⟨rfl, rfl, rfl, by decide, rfl⟩

/-- The same 401 response to the requests of Create, Get and List: none of the
three errors holds "Login again.". -/
theorem create_get_list_401_unclassified :
    (CreateIdentitysource (resolveThenClient unauthorizedResponse) sampleAuth
        sampleDocument).outcome
      = .ret (.error "unable to create the identitysource; code=401, body=Unauthorized") ∧
    (GetIdentitysource rawDecode (itemClient unauthorizedResponse) sampleAuth "app1").outcome
      = .ret (.error "unable to get the IdentitySource") ∧
    (GetIdentitysources rawDecode (constClient unauthorizedResponse) sampleAuth "" "").outcome
      = .ret (.error "unable to get the Identitysources") :=
  ⟨rfl, rfl, rfl⟩

/-! ### The resolver on a status other than 200 -/

/-- On a status for which `HandleCommonErrors` returns an error (400, 401, 403
and 404) the resolver returns an error that ends with its message. -/
theorem getIdentitysourceId_classified (client : Clientx) (auth : config.AuthConfig)
    (name : String) (response : Response) (m : String)
    (hget : (client (searchRequest auth name)).1 = some response)
    (hstatus : response.StatusCode ≠ 200)
    (hm : HandleCommonErrors response "unable to get IdentitySource" = some m) :
    (getIdentitysourceId client auth name).outcome
      = .ret (.error ("unable to get the IdentitySource with identitysourceName " ++ name ++
          "; err=" ++ m)) := by
  rw [getIdentitysourceId_of_response client auth name response hget]
  simp [resolveResponse, hstatus, hm]

/-- On every other status the resolver goes on to read the body, as it does
for status 200. -/
theorem getIdentitysourceId_unclassified (client : Clientx) (auth : config.AuthConfig)
    (name : String) (response : Response)
    (hget : (client (searchRequest auth name)).1 = some response)
    (hm : HandleCommonErrors response "unable to get IdentitySource" = none) :
    (getIdentitysourceId client auth name).outcome
      = .ret (extractId name response.Parsed) := by
  rw [getIdentitysourceId_of_response client auth name response hget]
  by_cases hstatus : response.StatusCode = 200
  · simp [resolveResponse, hstatus]
  · simp [resolveResponse, hstatus, hm]

/-- C12 fails: on a 500 response whose body holds an `identitySources` array
with a first element of id 42, for which `HandleCommonErrors` returns `nil`,
the resolver returns the id 42 and no error. -/
theorem getIdentitysourceId_500_returns_id :
    serverErrorWithResultResponse.StatusCode = 500 ∧
    HandleCommonErrors serverErrorWithResultResponse "unable to get IdentitySource" = none ∧
    (getIdentitysourceId (constClient serverErrorWithResultResponse) sampleAuth "app1").outcome
      = .ret (.ok "42") :=
  ⟨rfl, rfl, rfl⟩

end directory

end Verifyctl
